import Mathlib

/-!
Verification of `youtube-image-downloader` (src/src/main.rs).

The program resolves a YouTube channel URL to a channel id, looks up the
channel's uploads playlist, pages through the playlist collecting video ids,
and concurrently downloads one thumbnail per video id.

Shallow embedding conventions:
  * Network calls are modelled by oracles passed explicitly: response-valued
    functions (`Except String _` captures transport/decode failure propagated
    by Rust's `?`).  Each embedded operation additionally returns the trace of
    requests it issued, so that "exactly one query" / "zero network calls"
    claims are statable.
  * `get_channel_id_from_url` receives the URL *path* (the result of
    `reqwest::Url::parse(channel_url)?.path()`); URL parsing itself is not
    modelled, so all statements quantify over parseable references via their
    path string.
  * The pagination loop of `get_all_video_ids` is modelled with the page
    responses given as a finite list consumed in request order; the
    `oracleExhaustedMsg` branch is a modelling artifact reached only when the
    loop would request more pages than the list provides, never under the
    hypotheses of the theorems below.
  * The filesystem is a map `String → Option (List UInt8)`;
    `tokio::fs::File::create` truncates (store the empty content), `write_all`
    either stores the full body or, on failure, the prefix written so far.
-/

namespace Ytid

/-- Embeds `SearchResultId` from main.rs (field `channelId`). -/
structure SearchResultId where
  channel_id : String
deriving DecidableEq

/-- Embeds `SearchResultItem` from main.rs. -/
structure SearchResultItem where
  id : SearchResultId
deriving DecidableEq

/-- Embeds `SearchListResponse` from main.rs. -/
structure SearchListResponse where
  items : List SearchResultItem
deriving DecidableEq

/-- Embeds `RelatedPlaylists` from main.rs. -/
structure RelatedPlaylists where
  uploads : String
deriving DecidableEq

/-- Embeds `ContentDetails` from main.rs. -/
structure ContentDetails where
  related_playlists : RelatedPlaylists
deriving DecidableEq

/-- Embeds `ChannelItem` from main.rs: both fields are optional in the JSON. -/
structure ChannelItem where
  id : Option String
  content_details : Option ContentDetails
deriving DecidableEq

/-- Embeds `ChannelListResponse` from main.rs. -/
structure ChannelListResponse where
  items : List ChannelItem
deriving DecidableEq

/-- Embeds `VideoContentDetails` from main.rs (field `videoId`). -/
structure VideoContentDetails where
  video_id : String
deriving DecidableEq

/-- Embeds `PlaylistItem` from main.rs. -/
structure PlaylistItem where
  content_details : VideoContentDetails
deriving DecidableEq

/-- Embeds `PlaylistItemListResponse` from main.rs (field `nextPageToken`). -/
structure PlaylistItemListResponse where
  next_page_token : Option String
  items : List PlaylistItem
deriving DecidableEq

/-- The two kinds of API request `get_channel_id_from_url` can issue:
a channel-type search for a handle, or a `forUsername` channel lookup. -/
inductive ApiRequest where
  | search (handle : String)
  | channelsForUsername (username : String)
deriving DecidableEq

/-- Kernel-reducible model of Rust `str::split('/')`: splits a character list
at every slash (adjacent slashes give empty segments, as in Rust). -/
def splitOnSlash : List Char → List Char → List (List Char)
  | [], cur => [cur.reverse]
  | c :: rest, cur =>
    if c = '/' then cur.reverse :: splitOnSlash rest []
    else splitOnSlash rest (c :: cur)

/-- Embeds `url_path.split('/').filter(|s| !s.is_empty()).collect()`. -/
def pathParts (url_path : String) : List String :=
  ((splitOnSlash url_path.data []).map (fun cs => String.mk cs)).filter
    (fun s => !s.isEmpty)

/-- Embeds Rust `first_part.starts_with('@')`. -/
def startsWithAtSign (s : String) : Bool :=
  match s.data with
  | [] => false
  | c :: _ => c = '@'

/-- Embeds Rust `&first_part[1..]`: `'@'` is one byte, so slicing off one byte
equals dropping the first character. -/
def handleOf (first_part : String) : String :=
  String.mk (first_part.data.drop 1)

/-- Error string at main.rs line 106. -/
def invalidPathMsg : String := "Invalid YouTube channel URL path."

/-- Error string at main.rs line 130. -/
def handleNotFoundMsg (handle : String) : String :=
  "Could not find a channel ID for handle: " ++ handle

/-- Error string at main.rs line 166. -/
def usernameNotFoundMsg (username : String) : String :=
  "Could not find a channel ID for username: " ++ username

/-- Error string at main.rs line 171. -/
def unsupportedFormatMsg : String :=
  "Unsupported YouTube channel URL format. Please use a URL like https://www.youtube.com/@handle, https://www.youtube.com/channel/ID, or https://www.youtube.com/user/username"

/-- Embeds `get_channel_id_from_url` (main.rs lines 97-172).  `search` is the
oracle for the channel-type search endpoint, `channelsForUsername` the oracle
for the `forUsername` channel lookup; `url_path` is the parsed URL's path.
Returns the function result together with the ordered trace of API requests
issued. -/
def get_channel_id_from_url
    (search : String → Except String SearchListResponse)
    (channelsForUsername : String → Except String ChannelListResponse)
    (url_path : String) :
    Except String String × List ApiRequest :=
  match pathParts url_path with
  | [] => (Except.error invalidPathMsg, [])
  | first_part :: rest =>
    if startsWithAtSign first_part then
      let handle := handleOf first_part
      match search handle with
      | Except.error e => (Except.error e, [ApiRequest.search handle])
      | Except.ok response =>
        match response.items with
        | [] => (Except.error (handleNotFoundMsg handle), [ApiRequest.search handle])
        | item :: _ => (Except.ok item.id.channel_id, [ApiRequest.search handle])
    else
      match rest with
      | identifier :: _ =>
        if first_part = "channel" then
          (Except.ok identifier, [])
        else if first_part = "user" then
          match channelsForUsername identifier with
          | Except.error e =>
            (Except.error e, [ApiRequest.channelsForUsername identifier])
          | Except.ok response =>
            match (response.items.head?).bind (fun item => item.id) with
            | some cid =>
              (Except.ok cid, [ApiRequest.channelsForUsername identifier])
            | none =>
              (Except.error (usernameNotFoundMsg identifier),
               [ApiRequest.channelsForUsername identifier])
        else
          (Except.error unsupportedFormatMsg, [])
      | [] => (Except.error unsupportedFormatMsg, [])

/-- A path that matches none of the three supported shapes: either it has no
non-empty segment, or its first segment does not start with `@`, and it is not
a two-plus-segment `channel/...` or `user/...` path. -/
def matchesNoSupportedShape (url_path : String) : Bool :=
  match pathParts url_path with
  | [] => true
  | first_part :: rest =>
    !startsWithAtSign first_part &&
      (rest.isEmpty || (!(first_part == "channel") && !(first_part == "user")))

/-- Claim C2: for a reference whose first non-empty path segment starts with
`@`, resolution issues exactly one channel-type search query for the handle
text and returns the channel id of the first search result; zero results
yield the handle NotFound error. -/
theorem get_channel_id_handle
    (search : String → Except String SearchListResponse)
    (channelsForUsername : String → Except String ChannelListResponse)
    (url_path first_part : String) (rest : List String)
    (response : SearchListResponse)
    (hparts : pathParts url_path = first_part :: rest)
    (hat : startsWithAtSign first_part = true)
    (hsearch : search (handleOf first_part) = Except.ok response) :
    get_channel_id_from_url search channelsForUsername url_path
      = ((match response.items with
          | [] => Except.error (handleNotFoundMsg (handleOf first_part))
          | item :: _ => Except.ok item.id.channel_id),
         [ApiRequest.search (handleOf first_part)]) := by
  unfold get_channel_id_from_url
  rw [hparts]
  simp only [hat, if_true, hsearch]
  cases response.items <;> rfl

/-- Witness for C2 at the concrete reference path `/@myhandle` with a search
oracle returning one result. -/
theorem get_channel_id_handle_witness :
    pathParts "/@myhandle" = ["@myhandle"]
    ∧ startsWithAtSign "@myhandle" = true
    ∧ (fun (_ : String) =>
        (Except.ok ⟨[⟨⟨"UCxyz"⟩⟩]⟩ : Except String SearchListResponse)) (handleOf "@myhandle")
      = Except.ok ⟨[⟨⟨"UCxyz"⟩⟩]⟩
    ∧ get_channel_id_from_url
        (fun _ => Except.ok ⟨[⟨⟨"UCxyz"⟩⟩]⟩)
        (fun _ => Except.error "unused") "/@myhandle"
      = (Except.ok "UCxyz", [ApiRequest.search "myhandle"]) := by
  refine ⟨by decide, by decide, rfl, ?_⟩
  exact get_channel_id_handle
    (fun _ => Except.ok ⟨[⟨⟨"UCxyz"⟩⟩]⟩)
    (fun _ => Except.error "unused")
    "/@myhandle" "@myhandle" [] ⟨[⟨⟨"UCxyz"⟩⟩]⟩ (by decide) (by decide) rfl

/-- Claim C3: for a reference whose path has at least two non-empty segments
and first segment `channel`, resolution returns the second segment directly
and issues zero API requests (the oracles are arbitrary and the trace is
empty, so the result depends only on the URL path). -/
theorem get_channel_id_channel_direct
    (search : String → Except String SearchListResponse)
    (channelsForUsername : String → Except String ChannelListResponse)
    (url_path identifier : String) (rest : List String)
    (hparts : pathParts url_path = "channel" :: identifier :: rest) :
    get_channel_id_from_url search channelsForUsername url_path
      = (Except.ok identifier, []) := by
  unfold get_channel_id_from_url
  rw [hparts]
  simp only [show startsWithAtSign "channel" = false from rfl, if_false,
    Bool.false_eq_true, if_true, reduceIte]

/-- Witness for C3 at the concrete reference path `/channel/UCabc`. -/
theorem get_channel_id_channel_direct_witness :
    pathParts "/channel/UCabc" = ["channel", "UCabc"]
    ∧ get_channel_id_from_url
        (fun _ => Except.error "unused") (fun _ => Except.error "unused")
        "/channel/UCabc"
      = (Except.ok "UCabc", []) := by
  refine ⟨by decide, ?_⟩
  exact get_channel_id_channel_direct
    (fun _ => Except.error "unused") (fun _ => Except.error "unused")
    "/channel/UCabc" "UCabc" [] (by decide)

/-- Claim C4: for a reference whose path has at least two non-empty segments
and first segment `user`, resolution issues exactly one `forUsername` channel
lookup for the second segment and returns the id of the first item; an empty
item list yields the username NotFound error (as does a first item whose
optional id is absent). -/
theorem get_channel_id_user_lookup
    (search : String → Except String SearchListResponse)
    (channelsForUsername : String → Except String ChannelListResponse)
    (url_path identifier : String) (rest : List String)
    (response : ChannelListResponse)
    (hparts : pathParts url_path = "user" :: identifier :: rest)
    (hresp : channelsForUsername identifier = Except.ok response) :
    get_channel_id_from_url search channelsForUsername url_path
      = ((match response.items with
          | [] => Except.error (usernameNotFoundMsg identifier)
          | item :: _ =>
            match item.id with
            | some cid => Except.ok cid
            | none => Except.error (usernameNotFoundMsg identifier)),
         [ApiRequest.channelsForUsername identifier]) := by
  unfold get_channel_id_from_url
  rw [hparts]
  simp only [show startsWithAtSign "user" = false from rfl, Bool.false_eq_true,
    reduceIte, show ("user" = "channel") = False by simp, hresp]
  cases hitems : response.items with
  | nil => simp
  | cons item tail => cases hid : item.id <;> simp [hid]

/-- Witness for C4 at the concrete reference path `/user/olduser` with a
lookup oracle returning one item carrying an id. -/
theorem get_channel_id_user_lookup_witness :
    pathParts "/user/olduser" = ["user", "olduser"]
    ∧ (fun (_ : String) =>
        (Except.ok ⟨[⟨some "UCold", none⟩]⟩ : Except String ChannelListResponse)) "olduser"
      = Except.ok ⟨[⟨some "UCold", none⟩]⟩
    ∧ get_channel_id_from_url
        (fun _ => Except.error "unused")
        (fun _ => Except.ok ⟨[⟨some "UCold", none⟩]⟩) "/user/olduser"
      = (Except.ok "UCold", [ApiRequest.channelsForUsername "olduser"]) := by
  refine ⟨by decide, rfl, ?_⟩
  exact get_channel_id_user_lookup
    (fun _ => Except.error "unused")
    (fun _ => Except.ok ⟨[⟨some "UCold", none⟩]⟩)
    "/user/olduser" "olduser" [] ⟨[⟨some "UCold", none⟩]⟩ (by decide) rfl

/-- A playlist-items page request: the playlist id is in every request URL,
the continuation token only when the previous response supplied one. -/
structure PageRequest where
  playlist_id : String
  page_token : Option String
deriving DecidableEq

/-- The video ids contributed by one page, in response order (the body of the
`for item in response.items` loop at main.rs lines 220-222). -/
def pageVideoIds (response : PlaylistItemListResponse) : List String :=
  response.items.map (fun item => item.content_details.video_id)

/-- Modelling artifact: reached only when the loop would request more pages
than the finite oracle list provides. -/
def oracleExhaustedMsg : String := "model: page oracle exhausted"

/-- Embeds the body of the `loop` in `get_all_video_ids` (main.rs lines
208-228), with the successive page responses supplied as a list consumed one
per request.  `video_ids` and `page_token` are the loop's mutable state;
returns the function result together with the ordered trace of page requests
issued. -/
def get_all_video_ids_go (playlist_id : String)
    (pages : List (Except String PlaylistItemListResponse))
    (video_ids : List String) (page_token : Option String) :
    Except String (List String) × List PageRequest :=
  match pages with
  | [] => (Except.error oracleExhaustedMsg, [])
  | resp :: restPages =>
    let req : PageRequest := ⟨playlist_id, page_token⟩
    match resp with
    | Except.error e => (Except.error e, [req])
    | Except.ok response =>
      let video_ids := video_ids ++ pageVideoIds response
      match response.next_page_token with
      | none => (Except.ok video_ids, [req])
      | some tok =>
        let next := get_all_video_ids_go playlist_id restPages video_ids (some tok)
        (next.1, req :: next.2)

/-- Embeds `get_all_video_ids` (main.rs lines 200-231): the loop starts with
an empty accumulator and no page token. -/
def get_all_video_ids (playlist_id : String)
    (pages : List (Except String PlaylistItemListResponse)) :
    Except String (List String) × List PageRequest :=
  get_all_video_ids_go playlist_id pages [] none

/-- The page-chain shape of claim C1: pages 1..N-1 each carry a continuation
token and page N carries none (so N ≥ 1). -/
def properPageChain : List PlaylistItemListResponse → Bool
  | [] => false
  | [r] => r.next_page_token.isNone
  | r :: rest => r.next_page_token.isSome && properPageChain rest

/-- The request trace claim C1 predicts: one request per page, the first with
token `tok` (at the top level, none), each subsequent request carrying exactly
the previous response's continuation token. -/
def expectedRequests (playlist_id : String) :
    Option String → List PlaylistItemListResponse → List PageRequest
  | _, [] => []
  | tok, r :: rest =>
    ⟨playlist_id, tok⟩ :: expectedRequests playlist_id r.next_page_token rest

/-- The continuation token the loop holds after consuming the given pages. -/
def tokenAfter : Option String → List PlaylistItemListResponse → Option String
  | tok, [] => tok
  | _, r :: rest => tokenAfter r.next_page_token rest

/-- One-step unfolding of the loop on a successful page: items are appended,
then the response's continuation token decides between stopping and
requesting the next page with exactly that token. -/
theorem get_all_video_ids_go_cons (playlist_id : String)
    (response : PlaylistItemListResponse)
    (restPages : List (Except String PlaylistItemListResponse))
    (acc : List String) (tok : Option String) :
    get_all_video_ids_go playlist_id (Except.ok response :: restPages) acc tok
      = (match response.next_page_token with
         | none => (Except.ok (acc ++ pageVideoIds response), [⟨playlist_id, tok⟩])
         | some t =>
           ((get_all_video_ids_go playlist_id restPages
              (acc ++ pageVideoIds response) (some t)).1,
            ⟨playlist_id, tok⟩ ::
              (get_all_video_ids_go playlist_id restPages
                (acc ++ pageVideoIds response) (some t)).2)) := rfl

/-- `expectedRequests` predicts one request per page, for any starting
token. -/
theorem expectedRequests_length (playlist_id : String)
    (ps : List PlaylistItemListResponse) :
    ∀ tok, (expectedRequests playlist_id tok ps).length = ps.length := by
  induction ps with
  | nil => intro tok; rfl
  | cons r rest ih => intro tok; simp [expectedRequests, ih]

/-- Loop invariant behind claim C1, generalised over the accumulator and the
current token: on a properly terminating chain the loop consumes every page,
returns the accumulator extended by every page's ids in order, and issues
exactly the predicted requests. -/
theorem get_all_video_ids_go_ok (playlist_id : String)
    (ps : List PlaylistItemListResponse) :
    ∀ (acc : List String) (tok : Option String),
      properPageChain ps = true →
      get_all_video_ids_go playlist_id (ps.map Except.ok) acc tok
        = (Except.ok (acc ++ (ps.map pageVideoIds).flatten),
           expectedRequests playlist_id tok ps) := by
  induction ps with
  | nil => intro acc tok h; simp [properPageChain] at h
  | cons r rest ih =>
    intro acc tok h
    rw [List.map_cons, get_all_video_ids_go_cons]
    cases rest with
    | nil =>
      simp only [properPageChain, Option.isNone_iff_eq_none] at h
      rw [h]
      simp [expectedRequests, h]
    | cons r2 tail =>
      simp only [properPageChain, Bool.and_eq_true, Option.isSome_iff_exists] at h
      obtain ⟨⟨t, ht⟩, hrest⟩ := h
      rw [ht]
      simp only [ih (acc ++ pageVideoIds r) (some t) hrest]
      simp [expectedRequests, ht]

/-- Claim C1: on a chain of N pages where pages 1..N-1 carry continuation
tokens and page N carries none, the enumeration issues exactly N requests in
order (the first without a token, each later one carrying the previous
response's token), terminates, returns every page's video ids appended in
response order, and the result's length is the sum of the pages' item
counts. -/
theorem get_all_video_ids_pagination (playlist_id : String)
    (ps : List PlaylistItemListResponse)
    (h : properPageChain ps = true) :
    get_all_video_ids playlist_id (ps.map Except.ok)
      = (Except.ok ((ps.map pageVideoIds).flatten), expectedRequests playlist_id none ps)
    ∧ ((ps.map pageVideoIds).flatten).length
      = (ps.map (fun r => r.items.length)).sum
    ∧ (expectedRequests playlist_id none ps).length = ps.length := by
  refine ⟨?_, ?_, expectedRequests_length playlist_id ps none⟩
  · have hgo := get_all_video_ids_go_ok playlist_id ps [] none h
    simpa [get_all_video_ids] using hgo
  · simp [List.length_flatten, pageVideoIds, Function.comp_def, List.length_map]

/-- Witness for C1: the spec's concrete two-page example, page 1 with token
`T` and item `v1`, page 2 with item `v2` and no token. -/
theorem get_all_video_ids_pagination_witness :
    properPageChain [⟨some "T", [⟨⟨"v1"⟩⟩]⟩, ⟨none, [⟨⟨"v2"⟩⟩]⟩] = true
    ∧ (get_all_video_ids "PL"
        ([⟨some "T", [⟨⟨"v1"⟩⟩]⟩, ⟨none, [⟨⟨"v2"⟩⟩]⟩].map Except.ok)
        = (Except.ok ((([⟨some "T", [⟨⟨"v1"⟩⟩]⟩, ⟨none, [⟨⟨"v2"⟩⟩]⟩] :
              List PlaylistItemListResponse).map pageVideoIds).flatten),
           expectedRequests "PL" none [⟨some "T", [⟨⟨"v1"⟩⟩]⟩, ⟨none, [⟨⟨"v2"⟩⟩]⟩])
      ∧ ((([⟨some "T", [⟨⟨"v1"⟩⟩]⟩, ⟨none, [⟨⟨"v2"⟩⟩]⟩] :
              List PlaylistItemListResponse).map pageVideoIds).flatten).length
        = (([⟨some "T", [⟨⟨"v1"⟩⟩]⟩, ⟨none, [⟨⟨"v2"⟩⟩]⟩] :
              List PlaylistItemListResponse).map (fun r => r.items.length)).sum
      ∧ (expectedRequests "PL" none
          [⟨some "T", [⟨⟨"v1"⟩⟩]⟩, ⟨none, [⟨⟨"v2"⟩⟩]⟩]).length
        = ([⟨some "T", [⟨⟨"v1"⟩⟩]⟩, ⟨none, [⟨⟨"v2"⟩⟩]⟩] :
              List PlaylistItemListResponse).length) :=
  ⟨by decide,
   get_all_video_ids_pagination "PL"
     [⟨some "T", [⟨⟨"v1"⟩⟩]⟩, ⟨none, [⟨⟨"v2"⟩⟩]⟩] (by decide)⟩

/-- Loop invariant behind claim C8, generalised over the accumulator and the
current token: when every page before the failing one carries a continuation
token, the loop returns exactly the failing page's error — discarding the
accumulated ids — and its request trace is one request per earlier page plus
the single failing request; no page after the failure is requested and the
failing request is not retried. -/
theorem get_all_video_ids_go_error (playlist_id e : String)
    (ps : List PlaylistItemListResponse)
    (tail : List (Except String PlaylistItemListResponse)) :
    ∀ (acc : List String) (tok : Option String),
      (∀ r ∈ ps, r.next_page_token.isSome = true) →
      get_all_video_ids_go playlist_id
          (ps.map Except.ok ++ Except.error e :: tail) acc tok
        = (Except.error e,
           expectedRequests playlist_id tok ps
             ++ [⟨playlist_id, tokenAfter tok ps⟩]) := by
  induction ps with
  | nil =>
    intro acc tok _
    simp [get_all_video_ids_go, expectedRequests, tokenAfter]
  | cons r rest ih =>
    intro acc tok h
    obtain ⟨t, ht⟩ := Option.isSome_iff_exists.mp (h r (List.mem_cons_self r rest))
    have ihr := ih (acc ++ pageVideoIds r) (some t)
      (fun r' hr' => h r' (List.mem_cons_of_mem r hr'))
    simp [get_all_video_ids_go, ht, ihr, expectedRequests, tokenAfter]

/-- Claim C8: if some page request fails with a transport/decode error (after
earlier pages that each carried a continuation token), the enumeration
returns that error and no partial id sequence, issues exactly one request per
earlier page plus the single failing request (no retry), and issues no
request for any later page. -/
theorem get_all_video_ids_error_aborts (playlist_id e : String)
    (ps : List PlaylistItemListResponse)
    (tail : List (Except String PlaylistItemListResponse))
    (h : ∀ r ∈ ps, r.next_page_token.isSome = true) :
    get_all_video_ids playlist_id (ps.map Except.ok ++ Except.error e :: tail)
      = (Except.error e,
         expectedRequests playlist_id none ps
           ++ [⟨playlist_id, tokenAfter none ps⟩]) := by
  have hgo := get_all_video_ids_go_error playlist_id e ps tail [] none h
  simpa [get_all_video_ids] using hgo

/-- Witness for C8: one successful page with token `T` and item `v1`,
followed by a failing page, followed by a page that is never requested. -/
theorem get_all_video_ids_error_aborts_witness :
    (∀ r ∈ ([⟨some "T", [⟨⟨"v1"⟩⟩]⟩] : List PlaylistItemListResponse),
      r.next_page_token.isSome = true)
    ∧ get_all_video_ids "PL"
        ([⟨some "T", [⟨⟨"v1"⟩⟩]⟩].map Except.ok
          ++ Except.error "decode failure"
              :: [Except.ok ⟨none, [⟨⟨"v9"⟩⟩]⟩])
      = (Except.error "decode failure",
         expectedRequests "PL" none [⟨some "T", [⟨⟨"v1"⟩⟩]⟩]
           ++ [⟨"PL", tokenAfter none [⟨some "T", [⟨⟨"v1"⟩⟩]⟩]⟩]) :=
  ⟨by decide,
   get_all_video_ids_error_aborts "PL" "decode failure"
     [⟨some "T", [⟨⟨"v1"⟩⟩]⟩] [Except.ok ⟨none, [⟨⟨"v9"⟩⟩]⟩] (by decide)⟩

/-- Counterexample to claim C5 as stated: at the parseable reference path `/`
(no non-empty segment) resolution fails with the distinct message
`Invalid YouTube channel URL path.`, not with the UnsupportedFormat error that
names the accepted shapes. -/
theorem get_channel_id_empty_path_counterexample :
    (get_channel_id_from_url
      (fun _ => Except.error "unused") (fun _ => Except.error "unused") "/").1
      = Except.error invalidPathMsg
    ∧ invalidPathMsg ≠ unsupportedFormatMsg := by
  exact ⟨rfl, by decide⟩

/-- Claim C5 (amended): a parseable reference matching none of the three
supported shapes makes zero network calls and fails with an input-format
error: the UnsupportedFormat message naming the accepted shapes when the path
has at least one non-empty segment, and the distinct message
`Invalid YouTube channel URL path.` when it has none. -/
theorem get_channel_id_unsupported
    (search : String → Except String SearchListResponse)
    (channelsForUsername : String → Except String ChannelListResponse)
    (url_path : String)
    (h : matchesNoSupportedShape url_path = true) :
    (get_channel_id_from_url search channelsForUsername url_path).2 = []
    ∧ (get_channel_id_from_url search channelsForUsername url_path).1
      = (if (pathParts url_path).isEmpty then Except.error invalidPathMsg
         else Except.error unsupportedFormatMsg) := by
  unfold matchesNoSupportedShape at h
  unfold get_channel_id_from_url
  cases hparts : pathParts url_path with
  | nil => simp
  | cons first_part rest =>
    rw [hparts] at h
    simp only [Bool.and_eq_true, Bool.not_eq_true', Bool.or_eq_true,
      Bool.and_eq_true] at h
    obtain ⟨hat, h2⟩ := h
    cases rest with
    | nil => simp [hat]
    | cons b tail =>
      simp only [List.isEmpty_cons, Bool.false_eq_true, false_or,
        Bool.not_eq_true', beq_eq_false_iff_ne, ne_eq] at h2
      simp [hat, h2.1, h2.2]

/-- Witness for the amended C5 at the concrete reference path `/about/x`. -/
theorem get_channel_id_unsupported_witness :
    matchesNoSupportedShape "/about/x" = true
    ∧ (get_channel_id_from_url
        (fun _ => Except.error "unused") (fun _ => Except.error "unused")
        "/about/x").2 = []
    ∧ (get_channel_id_from_url
        (fun _ => Except.error "unused") (fun _ => Except.error "unused")
        "/about/x").1
      = (if (pathParts "/about/x").isEmpty then Except.error invalidPathMsg
         else Except.error unsupportedFormatMsg) := by
  refine ⟨by decide, ?_⟩
  exact get_channel_id_unsupported
    (fun _ => Except.error "unused") (fun _ => Except.error "unused")
    "/about/x" (by decide)

/-- An HTTP response from the image host: a status code, and the outcome of
reading the body (`response.bytes()` can itself fail with a transport
error). -/
structure HttpResponse where
  status : Nat
  body : Except String (List UInt8)

/-- Embeds reqwest `status().is_success()`: a 2xx status code. -/
def statusIsSuccess (status : Nat) : Bool :=
  200 ≤ status && status < 300

/-- Outcome of `file.write_all(&bytes)`: success, or failure after writing a
prefix of `written` bytes. -/
inductive WriteOutcome where
  | ok
  | failAfter (written : Nat) (e : String)
deriving DecidableEq

/-- The I/O environment of one `download_thumbnail` call: the outcome of the
image request, of `File::create`, and of `write_all`. -/
structure FetchEnv where
  send : Except String HttpResponse
  createResult : Except String Unit
  writeResult : WriteOutcome

/-- The output directory's filesystem, as a map from path to file contents. -/
def FileSystem : Type := String → Option (List UInt8)

/-- Storing a file (creation truncates to `[]`; a write stores the bytes). -/
def fsStore (fs : FileSystem) (path : String) (content : List UInt8) :
    FileSystem :=
  fun p => if p = path then some content else fs p

/-- Embeds `Path::new(output_dir).join(...)`. -/
def joinPath (dir name : String) : String := dir ++ "/" ++ name

/-- The single image URL requested per video id (main.rs line 240):
`maxresdefault.jpg`, with no lower-resolution fallback. -/
def thumbnailUrl (video_id : String) : String :=
  "https://img.youtube.com/vi/" ++ video_id ++ "/maxresdefault.jpg"

/-- The output file name `{video_id}.jpg` (main.rs line 244). -/
def thumbnailFileName (video_id : String) : String := video_id ++ ".jpg"

/-- Result of one `download_thumbnail` call: the Rust return value, the
filesystem afterwards, and the trace of image URLs requested. -/
structure FetchResult where
  result : Except String Unit
  fs : FileSystem
  requests : List String

/-- Embeds `download_thumbnail` (main.rs lines 234-260): request the single
highest-resolution image; on a success status create (truncate) the file,
read the body, write it; on a non-success status log and return `Ok(())`
without touching the filesystem. -/
def download_thumbnail (env : FetchEnv) (video_id output_dir : String)
    (fs : FileSystem) : FetchResult :=
  let url := thumbnailUrl video_id
  match env.send with
  | Except.error e => ⟨Except.error e, fs, [url]⟩
  | Except.ok response =>
    if statusIsSuccess response.status then
      let file_path := joinPath output_dir (thumbnailFileName video_id)
      match env.createResult with
      | Except.error e => ⟨Except.error e, fs, [url]⟩
      | Except.ok _ =>
        let fs1 := fsStore fs file_path []
        match response.body with
        | Except.error e => ⟨Except.error e, fs1, [url]⟩
        | Except.ok bytes =>
          match env.writeResult with
          | WriteOutcome.ok =>
            ⟨Except.ok (), fsStore fs1 file_path bytes, [url]⟩
          | WriteOutcome.failAfter k e =>
            ⟨Except.error e, fsStore fs1 file_path (bytes.take k), [url]⟩
    else
      ⟨Except.ok (), fs, [url]⟩

/-- Claim C6: a success (2xx) response with body `B` produces the file
`{video_id}.jpg` in the output directory containing exactly `B` — whatever
was previously stored at that path is overwritten, every other path is
untouched — and the call returns success. -/
theorem download_thumbnail_success (env : FetchEnv)
    (video_id output_dir : String) (fs : FileSystem)
    (response : HttpResponse) (bytes : List UInt8)
    (hsend : env.send = Except.ok response)
    (hstatus : statusIsSuccess response.status = true)
    (hcreate : env.createResult = Except.ok ())
    (hbody : response.body = Except.ok bytes)
    (hwrite : env.writeResult = WriteOutcome.ok) :
    (download_thumbnail env video_id output_dir fs).result = Except.ok ()
    ∧ (download_thumbnail env video_id output_dir fs).fs
        (joinPath output_dir (thumbnailFileName video_id)) = some bytes
    ∧ ∀ p, p ≠ joinPath output_dir (thumbnailFileName video_id) →
        (download_thumbnail env video_id output_dir fs).fs p = fs p := by
  unfold download_thumbnail
  rw [hsend]
  simp only [hstatus, if_true, hcreate, hbody, hwrite]
  refine ⟨?_, ?_, ?_⟩
  · simp
  · simp [fsStore]
  · intro p hp
    simp [fsStore, hp]

/-- Witness for C6: a 200 response with a two-byte body, written into an
initially empty output directory. -/
theorem download_thumbnail_success_witness :
    (FetchEnv.mk (Except.ok ⟨200, Except.ok [7, 42]⟩) (Except.ok ())
        WriteOutcome.ok).send = Except.ok ⟨200, Except.ok [7, 42]⟩
    ∧ statusIsSuccess (200 : Nat) = true
    ∧ (download_thumbnail
        (FetchEnv.mk (Except.ok ⟨200, Except.ok [7, 42]⟩) (Except.ok ())
          WriteOutcome.ok) "vid1" "out" (fun _ => none)).result = Except.ok ()
    ∧ (download_thumbnail
        (FetchEnv.mk (Except.ok ⟨200, Except.ok [7, 42]⟩) (Except.ok ())
          WriteOutcome.ok) "vid1" "out" (fun _ => none)).fs
        (joinPath "out" (thumbnailFileName "vid1")) = some [7, 42] := by
  refine ⟨rfl, by decide, ?_⟩
  have h := download_thumbnail_success
    (FetchEnv.mk (Except.ok ⟨200, Except.ok [7, 42]⟩) (Except.ok ())
      WriteOutcome.ok)
    "vid1" "out" (fun _ => none) ⟨200, Except.ok [7, 42]⟩ [7, 42]
    rfl (by decide) rfl rfl rfl
  exact ⟨h.1, h.2.1⟩

/-- Claim C7: a non-success status leaves the filesystem exactly as it was
(in particular `{video_id}.jpg` is not created), returns `Ok(())` to the
caller, and the only request issued is the single `maxresdefault.jpg` URL —
no lower-resolution fallback is attempted. -/
theorem download_thumbnail_skip (env : FetchEnv)
    (video_id output_dir : String) (fs : FileSystem)
    (response : HttpResponse)
    (hsend : env.send = Except.ok response)
    (hstatus : statusIsSuccess response.status = false) :
    download_thumbnail env video_id output_dir fs
      = ⟨Except.ok (), fs, [thumbnailUrl video_id]⟩ := by
  unfold download_thumbnail
  rw [hsend]
  simp [hstatus]

/-- Witness for C7: a 404 response, against a filesystem already holding an
unrelated file. -/
theorem download_thumbnail_skip_witness :
    (FetchEnv.mk (Except.ok ⟨404, Except.error "no body"⟩) (Except.ok ())
        WriteOutcome.ok).send = Except.ok ⟨404, Except.error "no body"⟩
    ∧ statusIsSuccess (404 : Nat) = false
    ∧ download_thumbnail
        (FetchEnv.mk (Except.ok ⟨404, Except.error "no body"⟩) (Except.ok ())
          WriteOutcome.ok) "vid1" "out"
        (fun p => if p = "out/other.jpg" then some [1] else none)
      = ⟨Except.ok (),
         (fun p => if p = "out/other.jpg" then some [1] else none),
         [thumbnailUrl "vid1"]⟩ := by
  refine ⟨rfl, by decide, ?_⟩
  exact download_thumbnail_skip
    (FetchEnv.mk (Except.ok ⟨404, Except.error "no body"⟩) (Except.ok ())
      WriteOutcome.ok)
    "vid1" "out" (fun p => if p = "out/other.jpg" then some [1] else none)
    ⟨404, Except.error "no body"⟩ rfl (by decide)

/-- Claim C10: on a 2xx status the file is created and truncated before the
body is read, so a failure while reading the body leaves an empty
`{video_id}.jpg` behind, and a failure while writing leaves the prefix
written so far — in both cases the call returns the error, yet the file
exists: fetch failure after a success status is not atomic. -/
theorem download_thumbnail_not_atomic (env : FetchEnv)
    (video_id output_dir : String) (fs : FileSystem)
    (response : HttpResponse)
    (hsend : env.send = Except.ok response)
    (hstatus : statusIsSuccess response.status = true)
    (hcreate : env.createResult = Except.ok ()) :
    (∀ e, response.body = Except.error e →
      (download_thumbnail env video_id output_dir fs).result = Except.error e
      ∧ (download_thumbnail env video_id output_dir fs).fs
          (joinPath output_dir (thumbnailFileName video_id)) = some [])
    ∧ (∀ bytes k e, response.body = Except.ok bytes →
        env.writeResult = WriteOutcome.failAfter k e →
      (download_thumbnail env video_id output_dir fs).result = Except.error e
      ∧ (download_thumbnail env video_id output_dir fs).fs
          (joinPath output_dir (thumbnailFileName video_id))
        = some (bytes.take k)) := by
  unfold download_thumbnail
  rw [hsend]
  simp only [hstatus, if_true, hcreate]
  constructor
  · intro e hbody
    rw [hbody]
    exact ⟨rfl, by simp [fsStore]⟩
  · intro bytes k e hbody hwrite
    rw [hbody, hwrite]
    exact ⟨rfl, by simp [fsStore]⟩

/-- Witness for C10: a 200 response whose body read fails. -/
theorem download_thumbnail_not_atomic_witness :
    (FetchEnv.mk (Except.ok ⟨200, Except.error "connection reset"⟩)
        (Except.ok ()) WriteOutcome.ok).send
      = Except.ok ⟨200, Except.error "connection reset"⟩
    ∧ statusIsSuccess (200 : Nat) = true
    ∧ (download_thumbnail
        (FetchEnv.mk (Except.ok ⟨200, Except.error "connection reset"⟩)
          (Except.ok ()) WriteOutcome.ok) "vid1" "out" (fun _ => none)).result
      = Except.error "connection reset"
    ∧ (download_thumbnail
        (FetchEnv.mk (Except.ok ⟨200, Except.error "connection reset"⟩)
          (Except.ok ()) WriteOutcome.ok) "vid1" "out" (fun _ => none)).fs
        (joinPath "out" (thumbnailFileName "vid1")) = some [] := by
  refine ⟨rfl, by decide, ?_⟩
  have h := download_thumbnail_not_atomic
    (FetchEnv.mk (Except.ok ⟨200, Except.error "connection reset"⟩)
      (Except.ok ()) WriteOutcome.ok)
    "vid1" "out" (fun _ => none) ⟨200, Except.error "connection reset"⟩
    rfl (by decide) rfl
  exact h.1 "connection reset" rfl

/-- Error string at main.rs line 196. -/
def uploadsNotFoundMsg : String :=
  "Could not find uploads playlist for the channel."

/-- Embeds `get_uploads_playlist_id` (main.rs lines 175-197): one channel
lookup by id; the first item's `contentDetails.relatedPlaylists.uploads` if
present, else the NotFound error. -/
def get_uploads_playlist_id
    (channels : String → Except String ChannelListResponse)
    (channel_id : String) : Except String String :=
  match channels channel_id with
  | Except.error e => Except.error e
  | Except.ok response =>
    match response.items with
    | item :: _ =>
      match item.content_details with
      | some details => Except.ok details.related_playlists.uploads
      | none => Except.error uploadsNotFoundMsg
    | [] => Except.error uploadsNotFoundMsg

/-- Error string at main.rs line 267. -/
def apiKeyMissingMsg : String :=
  "YOUTUBE_API_KEY environment variable not set."

/-- The environment of one run of `main`: the credential, the outcome of
creating the output directory, the oracles for the three resolution stages,
and the initial output-directory filesystem. -/
structure MainEnv where
  api_key : Option String
  createDirResult : Except String Unit
  search : String → Except String SearchListResponse
  channelsForUsername : String → Except String ChannelListResponse
  channelsById : String → Except String ChannelListResponse
  pages : List (Except String PlaylistItemListResponse)
  initFs : FileSystem

/-- The warning diagnostics printed by the spawned fetch tasks (main.rs lines
293-297): each task runs `download_thumbnail` for its video id and turns a
per-item error into a printed warning instead of propagating it. -/
def fetchWarnings (fetch : String → FetchEnv) (output_dir : String)
    (fs : FileSystem) (video_ids : List String) : List (String × String) :=
  video_ids.filterMap (fun video_id =>
    match (download_thumbnail (fetch video_id) video_id output_dir fs).result with
    | Except.error e => some (video_id, e)
    | Except.ok _ => none)

/-- Embeds `main` (main.rs lines 262-308): credential check, output-directory
creation, the three sequential resolution stages (each aborting the run via
`?`), then one fetch task per video id whose error is only logged; every task
is awaited and the run ends in `Ok(())`.  The fan-in is modelled sequentially
(each task writes a distinct file name, and task outcomes are independent);
on success the returned value carries the per-item warning diagnostics, so
that every task's outcome is accounted for. -/
def runMain (env : MainEnv) (fetch : String → FetchEnv)
    (channel_url_path output_dir : String) :
    Except String (List (String × String)) :=
  match env.api_key with
  | none => Except.error apiKeyMissingMsg
  | some _ =>
    match env.createDirResult with
    | Except.error e => Except.error e
    | Except.ok _ =>
      match (get_channel_id_from_url env.search env.channelsForUsername
          channel_url_path).1 with
      | Except.error e => Except.error e
      | Except.ok channel_id =>
        match get_uploads_playlist_id env.channelsById channel_id with
        | Except.error e => Except.error e
        | Except.ok uploads_playlist_id =>
          match (get_all_video_ids uploads_playlist_id env.pages).1 with
          | Except.error e => Except.error e
          | Except.ok video_ids =>
            Except.ok (fetchWarnings fetch output_dir env.initFs video_ids)

/-- Claim C9: whenever the credential is present, the output directory is
created, and the three sequential resolution stages succeed, the run ends in
overall success for every possible collection of per-item fetch outcomes —
the result is `ok` with one warning per failing item and nothing for the
succeeding ones, so per-item failures are diagnostics only and never change
the overall result. -/
theorem runMain_overall_success (env : MainEnv)
    (channel_url_path output_dir : String)
    (channel_id uploads_playlist_id : String) (video_ids : List String)
    (hkey : env.api_key.isSome = true)
    (hdir : env.createDirResult = Except.ok ())
    (hresolve : (get_channel_id_from_url env.search env.channelsForUsername
        channel_url_path).1 = Except.ok channel_id)
    (huploads : get_uploads_playlist_id env.channelsById channel_id
        = Except.ok uploads_playlist_id)
    (hvideos : (get_all_video_ids uploads_playlist_id env.pages).1
        = Except.ok video_ids) :
    ∀ fetch : String → FetchEnv,
      runMain env fetch channel_url_path output_dir
        = Except.ok (fetchWarnings fetch output_dir env.initFs video_ids)
      ∧ (runMain env fetch channel_url_path output_dir).isOk = true := by
  intro fetch
  obtain ⟨key, hk⟩ := Option.isSome_iff_exists.mp hkey
  have hrun : runMain env fetch channel_url_path output_dir
      = Except.ok (fetchWarnings fetch output_dir env.initFs video_ids) := by
    unfold runMain
    simp only [hk, hdir, hresolve, huploads, hvideos]
  exact ⟨hrun, by rw [hrun]; rfl⟩

/-- Witness for C9: a run whose stages resolve `/@myhandle` to one video,
with a fetch environment that fails for that item — the run still ends in
`ok`, carrying the item's warning. -/
theorem runMain_overall_success_witness :
    (MainEnv.mk (some "KEY") (Except.ok ())
        (fun _ => Except.ok ⟨[⟨⟨"UC1"⟩⟩]⟩)
        (fun _ => Except.error "unused")
        (fun _ => Except.ok ⟨[⟨some "UC1", some ⟨⟨"UU1"⟩⟩⟩]⟩)
        [Except.ok ⟨none, [⟨⟨"v1"⟩⟩]⟩]
        (fun _ => none)).api_key.isSome = true
    ∧ runMain
        (MainEnv.mk (some "KEY") (Except.ok ())
          (fun _ => Except.ok ⟨[⟨⟨"UC1"⟩⟩]⟩)
          (fun _ => Except.error "unused")
          (fun _ => Except.ok ⟨[⟨some "UC1", some ⟨⟨"UU1"⟩⟩⟩]⟩)
          [Except.ok ⟨none, [⟨⟨"v1"⟩⟩]⟩]
          (fun _ => none))
        (fun _ => FetchEnv.mk (Except.error "timeout") (Except.ok ())
          WriteOutcome.ok)
        "/@myhandle" "out"
      = Except.ok [("v1", "timeout")] := by
  refine ⟨rfl, ?_⟩
  have h := runMain_overall_success
    (MainEnv.mk (some "KEY") (Except.ok ())
      (fun _ => Except.ok ⟨[⟨⟨"UC1"⟩⟩]⟩)
      (fun _ => Except.error "unused")
      (fun _ => Except.ok ⟨[⟨some "UC1", some ⟨⟨"UU1"⟩⟩⟩]⟩)
      [Except.ok ⟨none, [⟨⟨"v1"⟩⟩]⟩]
      (fun _ => none))
    "/@myhandle" "out" "UC1" "UU1" ["v1"] rfl rfl rfl rfl rfl
    (fun _ => FetchEnv.mk (Except.error "timeout") (Except.ok ())
      WriteOutcome.ok)
  exact h.1

end Ytid
